import Mathlib

/-!
Verification development for a FHIR patient-management client
(src/fhripatient.js plus the updateSelectedPatient function shipped in the
repository documentation).  The JavaScript source is shallowly embedded:
DOM access is modelled as explicit string parameters (RawFields, the id
input fields), the fetch transport as an explicit `Option HttpResponse`
argument (`none` = network-level error, i.e. fetch or body parsing threw),
and the current instant `new Date()` as an integer count of milliseconds
since the Unix epoch.  Host date parsing is implementation-defined outside
strict ISO `YYYY-MM-DD` strings; the model accepts exactly strict ISO
date-only strings, which the ECMAScript standard fixes as UTC midnight and
rejects when a component is out of range.
-/

/-- Raw form field values as read by createPatientResource; an absent DOM
element yields the empty string (the `|| ""` fallbacks in the source). -/
structure RawFields where
  firstName : String
  lastName : String
  gender : String
  birthDate : String
  phone : String
  email : String
  address : String
deriving Repr, DecidableEq

/-- One entry of the `name` array of a built Patient resource. -/
structure NameEntry where
  use : String
  family : String
  given : List String
deriving Repr, DecidableEq

/-- One entry of the `telecom` array. -/
structure TelecomEntry where
  system : String
  value : String
  use : String
deriving Repr, DecidableEq

/-- One entry of the `address` array. -/
structure AddressEntry where
  use : String
  type : String
  text : String
deriving Repr, DecidableEq

/-- The Patient resource object assembled by createPatientResource (and
returned by the server).  `birthDate`, `address` and `id` are optional
object properties in JavaScript, hence `Option` here. -/
structure Patient where
  resourceType : String
  active : Bool
  name : List NameEntry
  gender : String
  telecom : List TelecomEntry
  birthDate : Option String
  address : Option (List AddressEntry)
  id : Option String
deriving Repr, DecidableEq

/-- The distinct validation failures of createPatientResource, one per
showError-then-return-null site, in source order. -/
inductive BuildError where
  | firstNameRequired
  | lastNameRequired
  | genderRequired
  | birthDateRequired
  | birthDateInvalid
  | birthDateFuture
  | emailInvalid
  | phoneInvalid
deriving Repr, DecidableEq

/-- Model of String.prototype.trim: whitespace removed from both ends,
written over the character list so that it evaluates by reduction. -/
def jsTrim (s : String) : String :=
  ⟨((s.data.dropWhile Char.isWhitespace).reverse.dropWhile Char.isWhitespace).reverse⟩

/-- Characters admitted by the bracket class of the email regular
expression: not whitespace and not the at sign. -/
def emailChar (c : Char) : Bool :=
  !c.isWhitespace && c != '@'

/-- Split a character list at the first occurrence of `c`; `none` when `c`
does not occur. -/
def splitAtFirst (c : Char) : List Char → Option (List Char × List Char)
  | [] => none
  | x :: xs =>
    if x = c then some ([], xs)
    else
      match splitAtFirst c xs with
      | some (a, b) => some (x :: a, b)
      | none => none

/-- Matcher for the anchored email regular expression of the source,
local-part, at sign, then a domain that decomposes as nonempty, dot,
nonempty.  Because the bracket class excludes the at sign, the at sign the
expression consumes is necessarily the first one in the string, and the
domain decomposition around a dot is equivalent to all characters being in
the class with a dot at some interior position (the dot itself lies in the
class, so the pieces around the chosen dot are automatically matched). -/
def emailOk (s : String) : Bool :=
  match splitAtFirst '@' s.data with
  | none => false
  | some (loc, dom) =>
    !loc.isEmpty && loc.all emailChar &&
    !dom.isEmpty && dom.all emailChar &&
    ((dom.drop 1).dropLast.contains '.')

/-- Characters removed from the phone string before matching: whitespace,
hyphen and parentheses. -/
def phoneStripChar (c : Char) : Bool :=
  c.isWhitespace || c = '-' || c = '(' || c = ')'

/-- The phone value with separator characters stripped, as produced by the
replace call in the source. -/
def stripPhone (s : String) : List Char :=
  s.data.filter (fun c => !phoneStripChar c)

/-- Matcher for the part of the phone regular expression after the optional
plus: a nonzero digit then at most fifteen further digits. -/
def phoneDigits : List Char → Bool
  | [] => false
  | c :: rest => ('1' ≤ c && c ≤ '9') && rest.length ≤ 15 && rest.all Char.isDigit

/-- Matcher for the anchored phone regular expression: an optional leading
plus (which, not being a digit, must be consumed by the optional branch
when present), then phoneDigits. -/
def phoneOk (l : List Char) : Bool :=
  match l with
  | '+' :: rest => phoneDigits rest
  | _ => phoneDigits l

/-- Leap year rule of the proleptic Gregorian calendar used by ECMAScript
dates. -/
def isLeapYear (y : Int) : Bool :=
  y % 4 == 0 && (y % 100 != 0 || y % 400 == 0)

/-- Number of days in month `m` (1 to 12) of year `y`. -/
def daysInMonth (y : Int) (m : Nat) : Nat :=
  if m = 1 then 31
  else if m = 2 then (if isLeapYear y then 29 else 28)
  else if m = 3 then 31
  else if m = 4 then 30
  else if m = 5 then 31
  else if m = 6 then 30
  else if m = 7 then 31
  else if m = 8 then 31
  else if m = 9 then 30
  else if m = 10 then 31
  else if m = 11 then 30
  else 31

/-- Days from the Unix epoch to the civil date `y-m-d` in the proleptic
Gregorian calendar. -/
def daysFromCivil (y : Int) (m d : Nat) : Int :=
  let yAdj : Int := if m ≤ 2 then y - 1 else y
  let era : Int := (if 0 ≤ yAdj then yAdj else yAdj - 399) / 400
  let yoe : Int := yAdj - era * 400
  let mp : Int := if m > 2 then (m : Int) - 3 else (m : Int) + 9
  let doy : Int := (153 * mp + 2) / 5 + (d : Int) - 1
  let doe : Int := yoe * 365 + yoe / 4 - yoe / 100 + doy
  era * 146097 + doe - 719468

/-- Milliseconds per day. -/
def msPerDay : Int := 86400000

/-- Numeric value of a decimal digit character. -/
def digitVal (c : Char) : Nat := c.toNat - '0'.toNat

/-- Model of the host Date constructor on the strict ISO `YYYY-MM-DD`
format: UTC midnight of the denoted day as milliseconds since the epoch,
`none` (Invalid Date, NaN time value) when the string is not in that
format or a component is out of range. -/
def parseDate (s : String) : Option Int :=
  match s.data with
  | [y1, y2, y3, y4, '-', m1, m2, '-', d1, d2] =>
    if (y1.isDigit && y2.isDigit && y3.isDigit && y4.isDigit &&
        m1.isDigit && m2.isDigit && d1.isDigit && d2.isDigit) then
      let y : Int := (digitVal y1 * 1000 + digitVal y2 * 100 + digitVal y3 * 10 + digitVal y4 : Nat)
      let m : Nat := digitVal m1 * 10 + digitVal m2
      let d : Nat := digitVal d1 * 10 + digitVal d2
      if 1 ≤ m && m ≤ 12 && 1 ≤ d && d ≤ daysInMonth y m then
        some (daysFromCivil y m d * msPerDay)
      else none
    else none
  | _ => none

/-- The resource object literal assembled at the end of
createPatientResource, with the conditional property additions; the push
and if conditions are JavaScript truthiness of the raw strings, i.e.
non-emptiness. -/
def assemblePatient (raw : RawFields) : Patient :=
  { resourceType := "Patient"
    active := true
    name := [{ use := "official", family := raw.lastName, given := [raw.firstName] }]
    gender := raw.gender
    telecom :=
      (if raw.phone != "" then [{ system := "phone", value := raw.phone, use := "home" }] else []) ++
      (if raw.email != "" then [{ system := "email", value := raw.email, use := "home" }] else [])
    birthDate := if raw.birthDate != "" then some raw.birthDate else none
    address :=
      if raw.address != "" then
        some [{ use := "home", type := "both", text := raw.address }]
      else none
    id := none }

/-- Embedding of createPatientResource: the chain of validation checks in
source order, each returning early with its error, then the assembled
resource.  `now` is the time value of `new Date()` at the date check. -/
def createPatientResource (raw : RawFields) (now : Int) : Except BuildError Patient :=
  if jsTrim raw.firstName == "" then .error .firstNameRequired
  else if jsTrim raw.lastName == "" then .error .lastNameRequired
  else if jsTrim raw.gender == "" then .error .genderRequired
  else if jsTrim raw.birthDate == "" then .error .birthDateRequired
  else
    let dateCheck : Option BuildError :=
      if raw.birthDate != "" then
        match parseDate raw.birthDate with
        | none => some .birthDateInvalid
        | some t => if t > now then some .birthDateFuture else none
      else none
    match dateCheck with
    | some e => .error e
    | none =>
      if jsTrim raw.email != "" && !emailOk (jsTrim raw.email) then .error .emailInvalid
      else if jsTrim raw.phone != "" && !phoneOk (stripPhone raw.phone) then .error .phoneInvalid
      else .ok (assemblePatient raw)

/-- Session state of the manager: the configured server base URL and the
selected-patient slot (the only mutable state the claims concern). -/
structure Session where
  baseUrl : String
  selectedPatient : Option Patient
deriving Repr, DecidableEq

/-- An outbound HTTP request as issued through fetch. -/
inductive Request where
  | post (url : String) (body : Patient)
  | get (url : String)
  | put (url : String) (body : Patient)
  | delete (url : String)
deriving Repr, DecidableEq

/-- URL of a request. -/
def Request.url : Request → String
  | .post u _ => u
  | .get u => u
  | .put u _ => u
  | .delete u => u

/-- A resolved HTTP response: status code and (for success paths) the
parsed resource body. -/
structure HttpResponse where
  status : Nat
  body : Patient
deriving Repr, DecidableEq

/-- The response.ok property: status in the inclusive range 200 to 299. -/
def respOk (r : HttpResponse) : Bool :=
  200 ≤ r.status && r.status ≤ 299

/-- User-facing outcome categories of the operations. -/
inductive Outcome where
  | created (p : Patient)
  | updated (p : Patient)
  | deleted (id : String)
  | found (p : Patient)
  | notFound (id : String)
  | validationFailed (e : BuildError)
  | preconditionFailed (msg : String)
  | cancelled
  | failed
deriving Repr, DecidableEq

/-- An outcome is a failure when it is not a confirmed success (resource
created, updated, deleted or found). -/
def Outcome.isFailure : Outcome → Bool
  | .created _ => false
  | .updated _ => false
  | .deleted _ => false
  | .found _ => false
  | .notFound _ => true
  | .validationFailed _ => true
  | .preconditionFailed _ => true
  | .cancelled => true
  | .failed => true

/-- Result of one operation: the session state after it, the reported
outcome, and the network requests it issued (in order). -/
structure OpResult where
  state : Session
  outcome : Outcome
  requests : List Request
deriving Repr, DecidableEq

/-- Embedding of createPatient: build the resource (aborting on
validation failure with no request), POST it, and on a 2xx response set
the returned resource as selected; any thrown error (network failure,
modelled as `resp = none`, or non-ok status) is caught leaving the state
untouched. -/
def createPatient (s : Session) (raw : RawFields) (now : Int)
    (resp : Option HttpResponse) : OpResult :=
  match createPatientResource raw now with
  | .error e => ⟨s, .validationFailed e, []⟩
  | .ok p =>
    let req := Request.post (s.baseUrl ++ "/Patient") p
    match resp with
    | none => ⟨s, .failed, [req]⟩
    | some r =>
      if respOk r then
        ⟨{ s with selectedPatient := some r.body }, .created r.body, [req]⟩
      else ⟨s, .failed, [req]⟩

/-- Embedding of getPatientById: blank id aborts with no request; GET the
resource; 2xx reports it found, 404 reports not found, anything else
fails.  No branch touches selectedPatient. -/
def getPatientById (s : Session) (patientId : String)
    (resp : Option HttpResponse) : OpResult :=
  if jsTrim patientId == "" then ⟨s, .preconditionFailed "Please enter a patient ID", []⟩
  else
    let req := Request.get (s.baseUrl ++ "/Patient/" ++ patientId)
    match resp with
    | none => ⟨s, .failed, [req]⟩
    | some r =>
      if respOk r then ⟨s, .found r.body, [req]⟩
      else if r.status = 404 then ⟨s, .notFound patientId, [req]⟩
      else ⟨s, .failed, [req]⟩

/-- String interpolation of an optional id into a URL; an undefined
property renders as the literal text undefined in a template string. -/
def idString : Option String → String
  | some i => i
  | none => "undefined"

/-- Embedding of updateSelectedPatient (shipped in the repository
documentation): no selection aborts with no request; a build failure
aborts with no request; otherwise the built resource receives the
selected id and is PUT to the selected endpoint; on 2xx the returned
resource replaces the selection. -/
def updateSelectedPatient (s : Session) (raw : RawFields) (now : Int)
    (resp : Option HttpResponse) : OpResult :=
  match s.selectedPatient with
  | none => ⟨s, .preconditionFailed "no patient selected", []⟩
  | some sel =>
    match createPatientResource raw now with
    | .error e => ⟨s, .validationFailed e, []⟩
    | .ok p =>
      let p2 := { p with id := sel.id }
      let req := Request.put (s.baseUrl ++ "/Patient/" ++ idString sel.id) p2
      match resp with
      | none => ⟨s, .failed, [req]⟩
      | some r =>
        if respOk r then
          ⟨{ s with selectedPatient := some r.body }, .updated r.body, [req]⟩
        else ⟨s, .failed, [req]⟩

/-- Embedding of deletePatient: blank id aborts with no request; an
unconfirmed prompt cancels with no request; DELETE the resource; ok or
204 clears the selection (clearSelectedPatient) and reports deletion; 404
reports not found; anything else fails, the selection untouched. -/
def deletePatient (s : Session) (patientId : String) (confirmed : Bool)
    (resp : Option HttpResponse) : OpResult :=
  if jsTrim patientId == "" then ⟨s, .preconditionFailed "Please enter a patient ID to delete", []⟩
  else if !confirmed then ⟨s, .cancelled, []⟩
  else
    let req := Request.delete (s.baseUrl ++ "/Patient/" ++ patientId)
    match resp with
    | none => ⟨s, .failed, [req]⟩
    | some r =>
      if respOk r || r.status == 204 then
        ⟨{ s with selectedPatient := none }, .deleted patientId, [req]⟩
      else if r.status = 404 then ⟨s, .notFound patientId, [req]⟩
      else ⟨s, .failed, [req]⟩

/-- The regular-expression replace removing a single trailing slash. -/
def stripTrailingSlash (s : String) : String :=
  if s.data.getLast? == some '/' then String.mk s.data.dropLast else s

/-- Embedding of updateServerUrl: the input element (when present with a
truthy, i.e. non-empty, value) replaces baseUrl after removing one
trailing slash; otherwise the state is unchanged. -/
def updateServerUrl (s : Session) (urlInput : Option String) : Session :=
  match urlInput with
  | some v => if v != "" then { s with baseUrl := stripTrailingSlash v } else s
  | none => s

/-- The constructor state of FHIRPatientManager: the hard-coded default
base URL (which ends in a slash in the source) and no selection. -/
def initialSession : Session :=
  { baseUrl := "https://fhir-bootcamp.medblocks.com/fhir/", selectedPatient := none }

/-- A patient object handed to the standalone validator: any of the four
inspected properties may be absent. -/
structure LoosePatient where
  resourceType : Option String
  name : Option (List NameEntry)
  gender : Option String
  birthDate : Option String
deriving Repr, DecidableEq

/-- Result of the standalone validator. -/
structure ValidationResult where
  isValid : Bool
  errors : List String
deriving Repr, DecidableEq

/-- JavaScript truthiness of an optional string property: present and
non-empty. -/
def truthy : Option String → Bool
  | none => false
  | some s => s != ""

/-- Matcher for the anchored date-format regular expression of the
validator: four digits, hyphen, two digits, hyphen, two digits. -/
def isDateFormat (s : String) : Bool :=
  match s.data with
  | [y1, y2, y3, y4, c1, m1, m2, c2, d1, d2] =>
    y1.isDigit && y2.isDigit && y3.isDigit && y4.isDigit &&
    c1 = '-' && m1.isDigit && m2.isDigit && c2 = '-' && d1.isDigit && d2.isDigit
  | _ => false

/-- Embedding of validatePatientResource: accumulate the four error
messages in source order, no short-circuit, validity defined as an empty
error list. -/
def validatePatientResource (p : LoosePatient) : ValidationResult :=
  let errors : List String := []
  let errors := errors ++
    (if !truthy p.resourceType || p.resourceType != some "Patient" then
      ["Resource type must be \"Patient\""] else [])
  let errors := errors ++
    (if (match p.name with | none => true | some l => l.isEmpty) then
      ["Patient must have at least one name"] else [])
  let errors := errors ++
    (if (match p.gender with
         | none => false
         | some g => g != "" && !(["male", "female", "other", "unknown"].contains g)) then
      ["Invalid gender value"] else [])
  let errors := errors ++
    (if (match p.birthDate with
         | none => false
         | some b => b != "" && !isDateFormat b) then
      ["Birth date must be in YYYY-MM-DD format"] else [])
  { isValid := errors.isEmpty, errors := errors }

/-- A string whose trimmed form is nonempty is itself nonempty. -/
theorem ne_empty_of_trim_ne_empty {s : String} (h : jsTrim s ≠ "") : s ≠ "" := by
  intro he
  apply h
  rw [he]
  rfl

/-- The validation checks of the builder as an ordered list of
(fails, error) pairs, in the order the specification enumerates them:
the four blank checks, date validity, date not in the future, email
shape, phone shape. -/
def buildChecks (raw : RawFields) (now : Int) : List (Bool × BuildError) :=
  [ (jsTrim raw.firstName == "", .firstNameRequired),
    (jsTrim raw.lastName == "", .lastNameRequired),
    (jsTrim raw.gender == "", .genderRequired),
    (jsTrim raw.birthDate == "", .birthDateRequired),
    ((parseDate raw.birthDate).isNone, .birthDateInvalid),
    ((match parseDate raw.birthDate with
      | some t => decide (t > now)
      | none => false), .birthDateFuture),
    (jsTrim raw.email != "" && !emailOk (jsTrim raw.email), .emailInvalid),
    (jsTrim raw.phone != "" && !phoneOk (stripPhone raw.phone), .phoneInvalid) ]

/-- The first failing check, in order, if any. -/
def firstFailingCheck (raw : RawFields) (now : Int) : Option BuildError :=
  ((buildChecks raw now).find? (fun c => c.1)).map (fun c => c.2)

/-- The builder returns the error of the first failing check, and the
assembled resource when no check fails. -/
theorem createPatientResource_eq (raw : RawFields) (now : Int) :
    createPatientResource raw now =
      (match firstFailingCheck raw now with
        | some e => Except.error e
        | none => Except.ok (assemblePatient raw)) := by
  unfold createPatientResource firstFailingCheck buildChecks
  cases h1 : jsTrim raw.firstName == "" with
  | true => simp [h1, List.find?]
  | false =>
  cases h2 : jsTrim raw.lastName == "" with
  | true => simp [h1, h2, List.find?]
  | false =>
  cases h3 : jsTrim raw.gender == "" with
  | true => simp [h1, h2, h3, List.find?]
  | false =>
  cases h4 : jsTrim raw.birthDate == "" with
  | true => simp [h1, h2, h3, h4, List.find?]
  | false =>
  have h5 : (raw.birthDate != "") = true := by
    simp only [bne_iff_ne, ne_eq]
    exact ne_empty_of_trim_ne_empty (by simpa using h4)
  cases hp : parseDate raw.birthDate with
  | none => simp [h1, h2, h3, h4, h5, hp, List.find?]
  | some t =>
  by_cases h6 : t > now
  · simp [h1, h2, h3, h4, h5, hp, h6, List.find?]
  · cases h7 : (jsTrim raw.email != "" && !emailOk (jsTrim raw.email)) with
    | true => simp [h1, h2, h3, h4, h5, hp, h6, h7, List.find?]
    | false =>
      cases h8 : (jsTrim raw.phone != "" && !phoneOk (stripPhone raw.phone)) with
      | true => simp [h1, h2, h3, h4, h5, hp, h6, h7, h8, List.find?]
      | false => simp [h1, h2, h3, h4, h5, hp, h6, h7, h8, List.find?]

/-- A raw-field vector with a blank first name and otherwise valid fields,
used to instantiate hypotheses at a concrete input. -/
def rawBlankFirst : RawFields :=
  { firstName := "", lastName := "Doe", gender := "male", birthDate := "1970-01-01",
    phone := "", email := "", address := "" }

/-- A fully valid raw-field vector. -/
def rawAda : RawFields :=
  { firstName := "Ada", lastName := "Lovelace", gender := "female", birthDate := "1815-12-10",
    phone := "", email := "", address := "" }

/-- A concrete session with no selection. -/
def sessionNone : Session := { baseUrl := "http://h", selectedPatient := none }

/-- A concrete server-side patient body with an id. -/
def patientServer : Patient :=
  { resourceType := "Patient", active := true,
    name := [{ use := "official", family := "Lovelace", given := ["Ada"] }],
    gender := "female", telecom := [], birthDate := some "1815-12-10",
    address := none, id := some "42" }

/-- A concrete session holding patientServer as its selection. -/
def sessionSel : Session := { baseUrl := "http://h", selectedPatient := some patientServer }

/-- C1: build applies its checks in the fixed order first name, last name,
gender, birth date blank; birth date valid; birth date not future; email
shape; phone shape, returning the error of the first failing check
(short-circuit); whenever one of the four required fields is blank after
trimming it fails; and on any build failure createPatient issues no
request, reports the validation failure, and leaves the state unchanged. -/
theorem C1_build_short_circuit (raw : RawFields) (now : Int) :
    (∀ e : BuildError, createPatientResource raw now = Except.error e ↔
        firstFailingCheck raw now = some e) ∧
    ((jsTrim raw.firstName = "" ∨ jsTrim raw.lastName = "" ∨
      jsTrim raw.gender = "" ∨ jsTrim raw.birthDate = "") →
      ∃ e, createPatientResource raw now = Except.error e) ∧
    (∀ (s : Session) (resp : Option HttpResponse) (e : BuildError),
      createPatientResource raw now = Except.error e →
      (createPatient s raw now resp).requests = [] ∧
      (createPatient s raw now resp).outcome = Outcome.validationFailed e ∧
      (createPatient s raw now resp).state = s) := by
  have key := createPatientResource_eq raw now
  refine ⟨?_, ?_, ?_⟩
  · intro e
    cases hf : firstFailingCheck raw now with
    | none => rw [hf] at key; rw [key]; simp [hf]
    | some e2 => rw [hf] at key; rw [key]; simp [hf]
  · intro hblank
    cases hf : firstFailingCheck raw now with
    | some e => exact ⟨e, by rw [key, hf]⟩
    | none =>
      exfalso
      have hnone : (buildChecks raw now).find? (fun c => c.1) = none := by
        have : ((buildChecks raw now).find? (fun c => c.1)).map (fun c => c.2) = none := hf
        cases hx : (buildChecks raw now).find? (fun c => c.1) with
        | none => rfl
        | some v => rw [hx] at this; simp at this
      rw [List.find?_eq_none] at hnone
      have k1 := hnone (jsTrim raw.firstName == "", BuildError.firstNameRequired)
        (by simp [buildChecks])
      have k2 := hnone (jsTrim raw.lastName == "", BuildError.lastNameRequired)
        (by simp [buildChecks])
      have k3 := hnone (jsTrim raw.gender == "", BuildError.genderRequired)
        (by simp [buildChecks])
      have k4 := hnone (jsTrim raw.birthDate == "", BuildError.birthDateRequired)
        (by simp [buildChecks])
      rcases hblank with h | h | h | h <;> simp_all
  · intro s resp e he
    unfold createPatient
    rw [he]
    exact ⟨rfl, rfl, rfl⟩

/-- Closed instantiation of C1 at a concrete blank-first-name input. -/
theorem C1_build_short_circuit_witness :
    createPatientResource rawBlankFirst 0 = Except.error BuildError.firstNameRequired ∧
    (createPatient sessionNone rawBlankFirst 0 none).requests = [] := by
  have h := C1_build_short_circuit rawBlankFirst 0
  have he : createPatientResource rawBlankFirst 0 = Except.error BuildError.firstNameRequired :=
    (h.1 BuildError.firstNameRequired).mpr (by decide)
  exact ⟨he, (h.2.2 sessionNone none BuildError.firstNameRequired he).1⟩

/-- C2: with the other checks passing, a birth date that denotes a
calendar day strictly after the day containing the current instant fails
with the future-date error, while one denoting exactly the current day
passes the date check and the build succeeds (inclusive boundary). -/
theorem C2_birthdate_boundary (raw : RawFields) (now nowDay dayBD : Int)
    (hfn : jsTrim raw.firstName ≠ "") (hln : jsTrim raw.lastName ≠ "")
    (hg : jsTrim raw.gender ≠ "") (hbd : jsTrim raw.birthDate ≠ "")
    (hp : parseDate raw.birthDate = some (dayBD * msPerDay))
    (hlo : nowDay * msPerDay ≤ now) (hhi : now < (nowDay + 1) * msPerDay) :
    (nowDay < dayBD →
      createPatientResource raw now = Except.error BuildError.birthDateFuture) ∧
    (dayBD = nowDay →
      (jsTrim raw.email = "" ∨ emailOk (jsTrim raw.email) = true) →
      (jsTrim raw.phone = "" ∨ phoneOk (stripPhone raw.phone) = true) →
      createPatientResource raw now = Except.ok (assemblePatient raw)) := by
  have h1 : (jsTrim raw.firstName == "") = false := by simp [hfn]
  have h2 : (jsTrim raw.lastName == "") = false := by simp [hln]
  have h3 : (jsTrim raw.gender == "") = false := by simp [hg]
  have h4 : (jsTrim raw.birthDate == "") = false := by simp [hbd]
  have h5 : (raw.birthDate != "") = true := by
    simp only [bne_iff_ne, ne_eq]
    exact ne_empty_of_trim_ne_empty hbd
  constructor
  · intro hfut
    have hms : (0 : Int) < msPerDay := by norm_num [msPerDay]
    have hstep : (nowDay + 1) * msPerDay ≤ dayBD * msPerDay := by
      have : nowDay + 1 ≤ dayBD := by omega
      exact mul_le_mul_of_nonneg_right this (le_of_lt hms)
    have hgt : dayBD * msPerDay > now := by linarith
    unfold createPatientResource
    simp [h1, h2, h3, h4, h5, hp, hgt]
  · intro heq hem hph
    have hng : ¬(dayBD * msPerDay > now) := by
      subst heq
      exact not_lt.mpr hlo
    have hE : (jsTrim raw.email != "" && !emailOk (jsTrim raw.email)) = false := by
      rcases hem with h | h <;> simp [h]
    have hP : (jsTrim raw.phone != "" && !phoneOk (stripPhone raw.phone)) = false := by
      rcases hph with h | h <;> simp [h]
    unfold createPatientResource
    simp [h1, h2, h3, h4, h5, hp, hng, hE, hP]

/-- A valid raw-field vector whose birth date is the day after the epoch. -/
def rawDayOne : RawFields :=
  { firstName := "A", lastName := "B", gender := "male", birthDate := "1970-01-02",
    phone := "", email := "", address := "" }

/-- A valid raw-field vector whose birth date is the epoch day itself. -/
def rawDayZero : RawFields :=
  { firstName := "A", lastName := "B", gender := "male", birthDate := "1970-01-01",
    phone := "", email := "", address := "" }

/-- Closed instantiation of C2 with the current instant at the epoch:
a birth date one day later is rejected as future, the epoch day itself
is accepted. -/
theorem C2_birthdate_boundary_witness :
    createPatientResource rawDayOne 0 = Except.error BuildError.birthDateFuture ∧
    createPatientResource rawDayZero 0 = Except.ok (assemblePatient rawDayZero) := by
  constructor
  · exact (C2_birthdate_boundary rawDayOne 0 0 1 (by decide) (by decide) (by decide)
      (by decide) (by decide) (by decide) (by decide)).1 (by decide)
  · exact (C2_birthdate_boundary rawDayZero 0 0 0 (by decide) (by decide) (by decide)
      (by decide) (by decide) (by decide) (by decide)).2 rfl
      (Or.inl (by decide)) (Or.inl (by decide))

/-- C3: for create, update-selected and delete, any failure outcome
(validation, precondition, not-found, cancellation, HTTP or network
failure) leaves the selection exactly as it was before the operation;
selection changes only on confirmed success. -/
theorem C3_failure_preserves_selection (s : Session) (raw : RawFields) (now : Int)
    (resp : Option HttpResponse) (patientId : String) (confirmed : Bool) :
    ((createPatient s raw now resp).outcome.isFailure = true →
      (createPatient s raw now resp).state.selectedPatient = s.selectedPatient) ∧
    ((updateSelectedPatient s raw now resp).outcome.isFailure = true →
      (updateSelectedPatient s raw now resp).state.selectedPatient = s.selectedPatient) ∧
    ((deletePatient s patientId confirmed resp).outcome.isFailure = true →
      (deletePatient s patientId confirmed resp).state.selectedPatient = s.selectedPatient) := by
  refine ⟨?_, ?_, ?_⟩
  · unfold createPatient
    cases hb : createPatientResource raw now with
    | error e => simp [Outcome.isFailure]
    | ok p =>
      cases resp with
      | none => simp [Outcome.isFailure]
      | some r =>
        by_cases hr : respOk r = true
        · simp [hr, Outcome.isFailure]
        · simp [hr, Outcome.isFailure]
  · unfold updateSelectedPatient
    cases hsel : s.selectedPatient with
    | none => simp [Outcome.isFailure, hsel]
    | some sel =>
      cases hb : createPatientResource raw now with
      | error e => simp [Outcome.isFailure, hsel]
      | ok p =>
        cases resp with
        | none => simp [Outcome.isFailure, hsel]
        | some r =>
          by_cases hr : respOk r = true
          · simp [hr, hsel, Outcome.isFailure]
          · simp [hr, hsel, Outcome.isFailure]
  · unfold deletePatient
    by_cases hid : (jsTrim patientId == "") = true
    · simp [hid, Outcome.isFailure]
    · cases confirmed with
      | false => simp [hid, Outcome.isFailure]
      | true =>
        cases resp with
        | none => simp [hid, Outcome.isFailure]
        | some r =>
          by_cases hr : (respOk r || r.status == 204) = true
          · simp [hid, hr, Outcome.isFailure]
          · simp only [Bool.or_eq_true, not_or] at hr
            by_cases h404 : r.status = 404
            · simp [hid, hr.1, hr.2, h404, Outcome.isFailure]
            · simp [hid, hr.1, hr.2, h404, Outcome.isFailure]

/-- Closed instantiation of C3: a failed create (network error), a failed
update (no selection) and a failed delete (server error) each leave the
selection as it was. -/
theorem C3_failure_preserves_selection_witness :
    (createPatient sessionSel rawAda 0 none).state.selectedPatient =
      sessionSel.selectedPatient ∧
    (updateSelectedPatient sessionNone rawAda 0 none).state.selectedPatient =
      sessionNone.selectedPatient ∧
    (deletePatient sessionSel "42" true (some ⟨500, patientServer⟩)).state.selectedPatient =
      sessionSel.selectedPatient := by
  refine ⟨?_, ?_, ?_⟩
  · exact (C3_failure_preserves_selection sessionSel rawAda 0 none "42" true).1 (by decide)
  · exact (C3_failure_preserves_selection sessionNone rawAda 0 none "42" true).2.1 (by decide)
  · exact (C3_failure_preserves_selection sessionSel rawAda 0
      (some ⟨500, patientServer⟩) "42" true).2.2 (by decide)

/-- C4: invoking update-selected with no selection fails with the
no-patient-selected precondition failure, issues no request and leaves
the state unchanged; with a selection present but a failing build, no
request is issued and the state is unchanged. -/
theorem C4_update_precondition (s : Session) (raw : RawFields) (now : Int)
    (resp : Option HttpResponse) :
    (s.selectedPatient = none →
      (updateSelectedPatient s raw now resp).outcome =
        Outcome.preconditionFailed "no patient selected" ∧
      (updateSelectedPatient s raw now resp).requests = [] ∧
      (updateSelectedPatient s raw now resp).state = s) ∧
    (∀ (sel : Patient) (e : BuildError), s.selectedPatient = some sel →
      createPatientResource raw now = Except.error e →
      (updateSelectedPatient s raw now resp).requests = [] ∧
      (updateSelectedPatient s raw now resp).state = s) := by
  constructor
  · intro h
    unfold updateSelectedPatient
    rw [h]
    exact ⟨rfl, rfl, rfl⟩
  · intro sel e hsel hb
    unfold updateSelectedPatient
    rw [hsel, hb]
    exact ⟨rfl, rfl⟩

/-- Closed instantiation of C4: no selection, and a selection with a
blank-field build failure. -/
theorem C4_update_precondition_witness :
    (updateSelectedPatient sessionNone rawAda 0 none).outcome =
      Outcome.preconditionFailed "no patient selected" ∧
    (updateSelectedPatient sessionSel rawBlankFirst 0 none).requests = [] := by
  constructor
  · exact ((C4_update_precondition sessionNone rawAda 0 none).1 rfl).1
  · exact ((C4_update_precondition sessionSel rawBlankFirst 0 none).2 patientServer
      BuildError.firstNameRequired rfl rfl).1

/-- C5: for a non-blank id and a confirmed prompt, a 2xx or 204 delete
response clears the selection unconditionally (the state is arbitrary, in
particular the selected resource may carry a different id) and reports
the deletion; a 404 response yields the distinct not-found outcome and
leaves the selection unchanged. -/
theorem C5_delete_clears_selection (s : Session) (patientId : String)
    (r : HttpResponse) (hid : jsTrim patientId ≠ "") :
    ((respOk r = true ∨ r.status = 204) →
      (deletePatient s patientId true (some r)).state.selectedPatient = none ∧
      (deletePatient s patientId true (some r)).outcome = Outcome.deleted patientId) ∧
    (r.status = 404 →
      (deletePatient s patientId true (some r)).outcome = Outcome.notFound patientId ∧
      (deletePatient s patientId true (some r)).state.selectedPatient =
        s.selectedPatient) := by
  have hid2 : (jsTrim patientId == "") = false := by simp [hid]
  constructor
  · intro hok
    have hcond : (respOk r || r.status == 204) = true := by
      rcases hok with h | h <;> simp [h]
    unfold deletePatient
    simp [hid2, hcond]
  · intro h404
    have hro : respOk r = false := by
      unfold respOk
      rw [h404]
      decide
    have hcond : (respOk r || r.status == 204) = false := by simp [hro, h404]
    unfold deletePatient
    simp [hid2, hcond, h404, hro]

/-- Closed instantiation of C5: deleting id 99 while id 42 is selected
clears the selection on success; a 404 reports not found. -/
theorem C5_delete_clears_selection_witness :
    (deletePatient sessionSel "99" true
      (some { status := 200, body := patientServer })).state.selectedPatient = none ∧
    (deletePatient sessionSel "99" true
      (some { status := 404, body := patientServer })).outcome = Outcome.notFound "99" := by
  constructor
  · exact ((C5_delete_clears_selection sessionSel "99"
      { status := 200, body := patientServer } (by decide)).1 (Or.inl (by decide))).1
  · exact ((C5_delete_clears_selection sessionSel "99"
      { status := 404, body := patientServer } (by decide)).2 rfl).1

/-- When no check fails, the four required fields are non-blank. -/
theorem firstFailing_none_required (raw : RawFields) (now : Int)
    (h : firstFailingCheck raw now = none) :
    jsTrim raw.firstName ≠ "" ∧ jsTrim raw.lastName ≠ "" ∧
    jsTrim raw.gender ≠ "" ∧ jsTrim raw.birthDate ≠ "" := by
  have hnone : (buildChecks raw now).find? (fun c => c.1) = none := by
    have hmap : ((buildChecks raw now).find? (fun c => c.1)).map (fun c => c.2) = none := h
    cases hx : (buildChecks raw now).find? (fun c => c.1) with
    | none => rfl
    | some v => rw [hx] at hmap; simp at hmap
  rw [List.find?_eq_none] at hnone
  have k1 := hnone (jsTrim raw.firstName == "", BuildError.firstNameRequired)
    (by simp [buildChecks])
  have k2 := hnone (jsTrim raw.lastName == "", BuildError.lastNameRequired)
    (by simp [buildChecks])
  have k3 := hnone (jsTrim raw.gender == "", BuildError.genderRequired)
    (by simp [buildChecks])
  have k4 := hnone (jsTrim raw.birthDate == "", BuildError.birthDateRequired)
    (by simp [buildChecks])
  refine ⟨?_, ?_, ?_, ?_⟩ <;> simp_all

/-- A valid raw-field vector whose address is a single space: blank after
trimming yet truthy for the JavaScript conditional. -/
def rawBlankAddress : RawFields :=
  { firstName := "A", lastName := "B", gender := "male", birthDate := "1970-01-01",
    phone := "", email := "", address := " " }

/-- Refutation of C6 as stated: a whitespace-only address is blank after
trimming, yet the build succeeds and the produced resource carries an
address entry (the source tests JavaScript truthiness, i.e. mere
non-emptiness, not non-blankness). -/
theorem C6_counterexample :
    jsTrim rawBlankAddress.address = "" ∧
    createPatientResource rawBlankAddress 0 =
      Except.ok (assemblePatient rawBlankAddress) ∧
    (assemblePatient rawBlankAddress).address =
      some [{ use := "home", type := "both", text := " " }] :=
  ⟨rfl, rfl, rfl⟩

/-- C6 (amended): on every successful build the resource has
given = [firstName], family = lastName, name use official; telecom is a
phone entry then an email entry, each with use home, present exactly when
the respective raw string is non-empty; address is the home/both singleton
exactly when the raw address string is non-empty (truthiness, so a
whitespace-only address still yields an entry); birthDate is copied
verbatim. -/
theorem C6_resource_assembly (raw : RawFields) (now : Int) (p : Patient)
    (h : createPatientResource raw now = Except.ok p) :
    p.name = [{ use := "official", family := raw.lastName, given := [raw.firstName] }] ∧
    p.telecom =
      (if raw.phone ≠ "" then [{ system := "phone", value := raw.phone, use := "home" }]
       else []) ++
      (if raw.email ≠ "" then [{ system := "email", value := raw.email, use := "home" }]
       else []) ∧
    p.address =
      (if raw.address ≠ "" then
        some [{ use := "home", type := "both", text := raw.address }]
       else none) ∧
    p.birthDate = some raw.birthDate := by
  have key := createPatientResource_eq raw now
  cases hf : firstFailingCheck raw now with
  | some e =>
    rw [hf] at key
    rw [key] at h
    exact absurd h (by simp)
  | none =>
    rw [hf] at key
    rw [key] at h
    injection h with h
    subst h
    have hbd : raw.birthDate ≠ "" :=
      ne_empty_of_trim_ne_empty (firstFailing_none_required raw now hf).2.2.2
    refine ⟨rfl, ?_, ?_, ?_⟩
    · by_cases hph : raw.phone = "" <;> by_cases hem : raw.email = "" <;>
        simp [assemblePatient, hph, hem]
    · by_cases had : raw.address = "" <;> simp [assemblePatient, had]
    · simp [assemblePatient, hbd]

/-- A fully populated valid raw-field vector. -/
def rawFull : RawFields :=
  { firstName := "Ada", lastName := "Lovelace", gender := "female",
    birthDate := "1970-01-01", phone := "+1 (555) 123-4567", email := "a@b.co",
    address := "1 Main St" }

/-- Closed instantiation of C6 (amended) on a fully populated input:
phone-then-email telecom order and the address singleton. -/
theorem C6_resource_assembly_witness :
    (assemblePatient rawFull).telecom =
      [{ system := "phone", value := "+1 (555) 123-4567", use := "home" },
       { system := "email", value := "a@b.co", use := "home" }] ∧
    (assemblePatient rawFull).address =
      some [{ use := "home", type := "both", text := "1 Main St" }] := by
  have hf : firstFailingCheck rawFull 0 = none := by decide
  have h := C6_resource_assembly rawFull 0 (assemblePatient rawFull)
    (by rw [createPatientResource_eq rawFull 0, hf])
  refine ⟨?_, ?_⟩
  · rw [h.2.1]; decide
  · rw [h.2.2.1]; decide

/-- A valid raw-field vector whose phone is a single space. -/
def rawBlankPhone : RawFields :=
  { firstName := "A", lastName := "B", gender := "male", birthDate := "1970-01-01",
    phone := " ", email := "", address := "" }

/-- Refutation of C7 as stated: for the phone string consisting of one
space, the stripped remainder is empty and matches nothing, yet the build
accepts the input (the phone check is gated on a non-blank trimmed
phone). -/
theorem C7_counterexample :
    createPatientResource rawBlankPhone 0 =
      Except.ok (assemblePatient rawBlankPhone) ∧
    phoneOk (stripPhone rawBlankPhone.phone) = false :=
  ⟨rfl, rfl⟩

/-- C7 (amended): for a phone string that is non-blank after trimming
(and otherwise valid fields), the build succeeds exactly when the phone
with spaces, hyphens and parentheses stripped matches an optional leading
plus, a non-zero digit, then at most fifteen further digits; blank phone
strings skip the check entirely.  The cited examples hold: the formatted
US number is accepted and a leading zero is rejected. -/
theorem C7_phone_validation (raw : RawFields) (now t : Int)
    (hph : jsTrim raw.phone ≠ "")
    (hfn : jsTrim raw.firstName ≠ "") (hln : jsTrim raw.lastName ≠ "")
    (hg : jsTrim raw.gender ≠ "") (hbd : jsTrim raw.birthDate ≠ "")
    (hp : parseDate raw.birthDate = some t) (ht : ¬t > now)
    (hem : jsTrim raw.email = "" ∨ emailOk (jsTrim raw.email) = true) :
    ((∃ p, createPatientResource raw now = Except.ok p) ↔
      phoneOk (stripPhone raw.phone) = true) ∧
    phoneOk (stripPhone "+1 (555) 123-4567") = true ∧
    phoneOk (stripPhone "0123") = false := by
  have h1 : (jsTrim raw.firstName == "") = false := by simp [hfn]
  have h2 : (jsTrim raw.lastName == "") = false := by simp [hln]
  have h3 : (jsTrim raw.gender == "") = false := by simp [hg]
  have h4 : (jsTrim raw.birthDate == "") = false := by simp [hbd]
  have h5 : (raw.birthDate != "") = true := by
    simp only [bne_iff_ne, ne_eq]
    exact ne_empty_of_trim_ne_empty hbd
  have hE : (jsTrim raw.email != "" && !emailOk (jsTrim raw.email)) = false := by
    rcases hem with h | h <;> simp [h]
  have hphb : (jsTrim raw.phone != "") = true := by simp [hph]
  refine ⟨?_, by decide, by decide⟩
  unfold createPatientResource
  simp only [h1, h2, h3, h4, h5, hp, ht, hE]
  cases hpo : phoneOk (stripPhone raw.phone) <;> simp [hphb, hpo, ht]

/-- Closed instantiation of C7 (amended) at the formatted US number. -/
theorem C7_phone_validation_witness :
    (∃ p, createPatientResource rawFull 0 = Except.ok p) ∧
    phoneOk (stripPhone "0123") = false := by
  have h := C7_phone_validation rawFull 0 0 (by decide) (by decide) (by decide)
    (by decide) (by decide) (by decide) (by decide) (Or.inr (by decide))
  exact ⟨h.1.mpr (by decide), h.2.2⟩

/-- C8: fetching a patient by id returns the session state untouched for
every id and every response outcome, and a 404 on a non-blank id yields
the distinct not-found outcome. -/
theorem C8_fetch_preserves_selection (s : Session) (patientId : String)
    (resp : Option HttpResponse) :
    (getPatientById s patientId resp).state = s ∧
    (jsTrim patientId ≠ "" → ∀ r, resp = some r → r.status = 404 →
      (getPatientById s patientId resp).outcome = Outcome.notFound patientId) := by
  constructor
  · unfold getPatientById
    by_cases hid : (jsTrim patientId == "") = true
    · simp [hid]
    · cases resp with
      | none => simp [hid]
      | some r =>
        by_cases hr : respOk r = true
        · simp [hid, hr]
        · by_cases h404 : r.status = 404 <;> simp [hid, hr, h404]
  · intro hid r hr h404
    subst hr
    have hid2 : (jsTrim patientId == "") = false := by simp [hid]
    have hro : respOk r = false := by
      unfold respOk
      rw [h404]
      decide
    unfold getPatientById
    simp [hid2, hro, h404]

/-- Closed instantiation of C8: a 404 fetch of id 999 with a selection
held leaves the whole state (hence the selection) unchanged and reports
not found. -/
theorem C8_fetch_preserves_selection_witness :
    (getPatientById sessionSel "999"
      (some { status := 404, body := patientServer })).state = sessionSel ∧
    (getPatientById sessionSel "999"
      (some { status := 404, body := patientServer })).outcome =
        Outcome.notFound "999" := by
  have h := C8_fetch_preserves_selection sessionSel "999"
    (some { status := 404, body := patientServer })
  exact ⟨h.1, h.2 (by decide) _ rfl rfl⟩

/-- Refutation of C9 as stated: the initial (default) baseUrl of the
constructor ends in a slash, and configuring a value ending in two
slashes leaves a trailing slash in the stored baseUrl (the replacement
removes exactly one). -/
theorem C9_counterexample :
    initialSession.baseUrl.data.getLast? = some '/' ∧
    (updateServerUrl initialSession (some "http://h//")).baseUrl.data.getLast? =
      some '/' := by
  exact ⟨rfl, rfl⟩

/-- C9 (amended): a non-empty configured URL is stored with exactly one
trailing slash removed and otherwise verbatim; an empty or absent input
leaves the state unchanged; every request URL of the modelled operations
uses the stored baseUrl verbatim as prefix.  The initial default value
itself ends in a slash. -/
theorem C9_baseurl_handling (s : Session) (v : String) :
    (v ≠ "" → updateServerUrl s (some v) = { s with baseUrl := stripTrailingSlash v }) ∧
    (updateServerUrl s (some "") = s) ∧
    (updateServerUrl s none = s) ∧
    (∀ (raw : RawFields) (now : Int) (resp : Option HttpResponse) (req : Request),
      req ∈ (createPatient s raw now resp).requests →
      req.url = s.baseUrl ++ "/Patient") ∧
    (∀ (patientId : String) (resp : Option HttpResponse) (req : Request),
      req ∈ (getPatientById s patientId resp).requests →
      req.url = s.baseUrl ++ "/Patient/" ++ patientId) ∧
    (∀ (patientId : String) (confirmed : Bool) (resp : Option HttpResponse)
      (req : Request),
      req ∈ (deletePatient s patientId confirmed resp).requests →
      req.url = s.baseUrl ++ "/Patient/" ++ patientId) ∧
    (∀ (raw : RawFields) (now : Int) (resp : Option HttpResponse) (req : Request)
      (sel : Patient), s.selectedPatient = some sel →
      req ∈ (updateSelectedPatient s raw now resp).requests →
      req.url = s.baseUrl ++ "/Patient/" ++ idString sel.id) := by
  refine ⟨?_, ?_, ?_, ?_, ?_, ?_, ?_⟩
  · intro hv
    unfold updateServerUrl
    simp [hv]
  · rfl
  · rfl
  · intro raw now resp req hreq
    unfold createPatient at hreq
    cases hb : createPatientResource raw now with
    | error e => rw [hb] at hreq; simp at hreq
    | ok p =>
      rw [hb] at hreq
      cases resp with
      | none => simp at hreq; subst hreq; rfl
      | some r =>
        by_cases hr : respOk r = true <;> simp [hr] at hreq <;> subst hreq <;> rfl
  · intro patientId resp req hreq
    unfold getPatientById at hreq
    by_cases hid : (jsTrim patientId == "") = true
    · simp [hid] at hreq
    · cases resp with
      | none => simp [hid] at hreq; subst hreq; rfl
      | some r =>
        by_cases hr : respOk r = true
        · simp [hid, hr] at hreq; subst hreq; rfl
        · by_cases h404 : r.status = 404 <;>
            simp [hid, hr, h404] at hreq <;> subst hreq <;> rfl
  · intro patientId confirmed resp req hreq
    unfold deletePatient at hreq
    by_cases hid : (jsTrim patientId == "") = true
    · simp [hid] at hreq
    · cases confirmed with
      | false => simp [hid] at hreq
      | true =>
        cases resp with
        | none => simp [hid] at hreq; subst hreq; rfl
        | some r =>
          by_cases hr : (respOk r || r.status == 204) = true
          · simp [hid, hr] at hreq; subst hreq; rfl
          · simp only [Bool.or_eq_true, not_or] at hr
            by_cases h404 : r.status = 404 <;>
              simp [hid, hr.1, hr.2, h404] at hreq <;> subst hreq <;> rfl
  · intro raw now resp req sel hsel hreq
    unfold updateSelectedPatient at hreq
    rw [hsel] at hreq
    cases hb : createPatientResource raw now with
    | error e => rw [hb] at hreq; simp at hreq
    | ok p =>
      rw [hb] at hreq
      cases resp with
      | none => simp at hreq; subst hreq; rfl
      | some r =>
        by_cases hr : respOk r = true <;> simp [hr] at hreq <;> subst hreq <;> rfl

/-- Closed instantiation of C9 (amended): one trailing slash is stripped
from a configured value, and a concrete GET request uses the stored
baseUrl verbatim. -/
theorem C9_baseurl_handling_witness :
    (updateServerUrl sessionNone (some "http://server/")).baseUrl = "http://server" ∧
    (Request.get "http://h/Patient/7").url = sessionNone.baseUrl ++ "/Patient/" ++ "7" := by
  have h := C9_baseurl_handling sessionNone "http://server/"
  constructor
  · rw [h.1 (by decide)]
    decide
  · exact h.2.2.2.2.1 "7" none (Request.get "http://h/Patient/7") (by decide)

/-- Condition of the resource-type error of the validator. -/
def rtBad (p : LoosePatient) : Bool :=
  !truthy p.resourceType || p.resourceType != some "Patient"

/-- Condition of the missing-name error. -/
def nameBad (p : LoosePatient) : Bool :=
  match p.name with | none => true | some l => l.isEmpty

/-- Condition of the gender-membership error: applied only when the field
is present and non-empty. -/
def genderBad (p : LoosePatient) : Bool :=
  match p.gender with
  | none => false
  | some g => g != "" && !(["male", "female", "other", "unknown"].contains g)

/-- Condition of the birth-date-format error: applied only when the field
is present and non-empty. -/
def birthBad (p : LoosePatient) : Bool :=
  match p.birthDate with
  | none => false
  | some b => b != "" && !isDateFormat b

/-- The error list the claim predicts: all applicable errors accumulated,
in the fixed order resource type, name, gender, birth date. -/
def expectedErrors (p : LoosePatient) : List String :=
  (if rtBad p then ["Resource type must be \"Patient\""] else []) ++
  (if nameBad p then ["Patient must have at least one name"] else []) ++
  (if genderBad p then ["Invalid gender value"] else []) ++
  (if birthBad p then ["Birth date must be in YYYY-MM-DD format"] else [])

/-- C10: the standalone validator is valid exactly when its error list is
empty; it accumulates all applicable errors in the fixed order resource
type, name, gender, birth date, with the gender and birth-date checks
gated on presence and non-emptiness; and a resource with type Patient and
a nonempty name but no gender and no birth date is valid. -/
theorem C10_validator_accumulation (p : LoosePatient) :
    ((validatePatientResource p).isValid = true ↔
      (validatePatientResource p).errors = []) ∧
    (validatePatientResource p).errors = expectedErrors p ∧
    (∀ l : List NameEntry, p.resourceType = some "Patient" → p.name = some l →
      l ≠ [] → p.gender = none → p.birthDate = none →
      (validatePatientResource p).isValid = true) := by
  refine ⟨?_, ?_, ?_⟩
  · unfold validatePatientResource
    simp
  · unfold validatePatientResource expectedErrors rtBad nameBad genderBad birthBad
    simp
  · intro l h1 h2 h3 h4 h5
    have hl : l.isEmpty = false := by simp [h3]
    unfold validatePatientResource
    simp [h1, h2, h4, h5, hl, truthy]

/-- A loose patient object with type Patient, one name, no gender, no
birth date. -/
def loosePatientOk : LoosePatient :=
  { resourceType := some "Patient",
    name := some [{ use := "official", family := "Doe", given := ["J"] }],
    gender := none, birthDate := none }

/-- Closed instantiation of C10: the minimal valid resource is reported
valid. -/
theorem C10_validator_accumulation_witness :
    (validatePatientResource loosePatientOk).isValid = true := by
  exact (C10_validator_accumulation loosePatientOk).2.2
    [{ use := "official", family := "Doe", given := ["J"] }] rfl rfl (by decide) rfl rfl
